import Mathlib

/-!
Shallow embedding of `src/streamlit_dashboard.py` (casaip/voice-recognition-security).

The dashboard keeps a single mutable `VoiceRecognitionSystem` object in the
Streamlit session state, together with a `monitoring` flag and a demo counter.
Button handlers mutate that object.  We embed the state as a structure and each
handler as a pure function from the state (plus the random draws the handler
makes, passed explicitly, and the wall-clock strings) to the new state and/or
the handler's observable result.  Python floats are modelled as rationals;
Python dicts (which preserve insertion order and keep keys unique) are modelled
as association lists with a replace-or-append update.
-/

namespace VoiceDashboard

/-- Value stored in `known_voices` for one enrolled name
(`load_demo_voices` / the Register Voice Profile handler). -/
structure VoiceProfile where
  confidence : ℚ
  registered : String
  calls_today : ℕ
  profile_strength : String
deriving DecidableEq, Repr

/-- `known_voices` is a Python dict `name -> profile`; modelled as an
insertion-ordered association list. -/
abbrev VoiceStore := List (String × VoiceProfile)

/-- The key list of the store, in insertion order (Python `dict.keys()`). -/
def keys (s : VoiceStore) : List String := s.map Prod.fst

/-- Python `known_voices[name]` / `name in known_voices`: first (unique) entry
with the given key. -/
def lookupVoice : VoiceStore → String → Option VoiceProfile
  | [], _ => none
  | kv :: rest, n => if kv.1 = n then some kv.2 else lookupVoice rest n

/-- Python dict assignment `known_voices[name] = profile`: replaces the value
of an existing key in place, otherwise appends the new entry at the end. -/
def dictInsert (s : VoiceStore) (n : String) (p : VoiceProfile) : VoiceStore :=
  if n ∈ keys s then
    s.map (fun kv => if kv.1 = n then (n, p) else kv)
  else
    s ++ [(n, p)]

/-- `VoiceRecognitionSystem.load_demo_voices` (lines 108-135). -/
def load_demo_voices : VoiceStore :=
  [ ("Mom", ⟨94/100, "2024-01-10", 3, "Excellent"⟩),
    ("Dad", ⟨89/100, "2024-01-10", 2, "Very Good"⟩),
    ("Sister", ⟨92/100, "2024-01-09", 1, "Excellent"⟩),
    ("Best Friend", ⟨87/100, "2024-01-08", 4, "Good"⟩) ]

/-- One record of `call_history` (the dict built by the Simulate Call handler
and by `generate_demo_history`). -/
structure CallRecord where
  time : String
  date : String
  caller : String
  status : String
  confidence : ℚ
deriving DecidableEq, Repr

/-- The session state: the `VoiceRecognitionSystem` object
(`known_voices`, `threshold`, `call_history`) together with the
`st.session_state.monitoring` flag toggled by the Live Monitoring page. -/
structure VoiceRecognitionSystem where
  known_voices : VoiceStore
  threshold : ℚ
  call_history : List CallRecord
  monitoring : Bool
deriving DecidableEq, Repr

/-- The result record of `VoiceRecognitionSystem.get_stats` (lines 160-172). -/
structure Stats where
  total_calls : ℕ
  authorized : ℕ
  blocked : ℕ
  block_rate : ℚ
deriving DecidableEq, Repr

/-- The predicate `call["status"] == "Authorized"` used by `get_stats`. -/
def isAuthorized (c : CallRecord) : Bool := c.status == "Authorized"

/-- `VoiceRecognitionSystem.get_stats` (lines 160-172):
`authorized` counts history entries with status `"Authorized"`,
`blocked = total - authorized`, and the block rate is guarded against an
empty history. -/
def get_stats (call_history : List CallRecord) : Stats :=
  let total_calls := call_history.length
  let authorized := (call_history.filter isAuthorized).length
  let blocked := total_calls - authorized
  let block_rate : ℚ :=
    if 0 < total_calls then (blocked : ℚ) / (total_calls : ℚ) * 100 else 0
  ⟨total_calls, authorized, blocked, block_rate⟩

/-- The candidate list `caller_types` of the Simulate Call handler (line 356). -/
def caller_types : List String :=
  ["Mom", "Unknown Scammer", "Dad", "Telemarketer", "Sister"]

/-- The Simulate Call handler (lines 354-376).  `new_caller` is the name drawn
by `random.choice(caller_types)`; `noise_known` is the draw of
`random.uniform(-0.05, 0.05)` used when the caller is known, `noise_unknown`
the draw of `random.uniform(0.05, 0.35)` used otherwise.  The handler builds a
record and inserts it at the front of `call_history`.  Note that the recorded
caller is always the drawn name, the branch is decided purely by membership in
`known_voices`, and `threshold` is never consulted. -/
def simulateCall (sys : VoiceRecognitionSystem) (new_caller : String)
    (noise_known noise_unknown : ℚ) (time date : String) :
    VoiceRecognitionSystem × CallRecord :=
  let new_call : CallRecord :=
    match lookupVoice sys.known_voices new_caller with
    | some prof => ⟨time, date, new_caller, "Authorized", prof.confidence + noise_known⟩
    | none => ⟨time, date, new_caller, "Blocked", noise_unknown⟩
  ({ sys with call_history := new_call :: sys.call_history }, new_call)

/-- The Start/Stop Monitoring button handler (lines 348-351): it
unconditionally toggles the `monitoring` flag; there is no enrolled-reference
check, no error path, and no separate stop operation. -/
def monitoringButton (sys : VoiceRecognitionSystem) : VoiceRecognitionSystem :=
  { sys with monitoring := !sys.monitoring }

/-- The Update Settings handler of the System Settings page (lines 632-634):
stores the slider value into `threshold`. -/
def updateSettings (sys : VoiceRecognitionSystem) (new_threshold : ℚ) :
    VoiceRecognitionSystem :=
  { sys with threshold := new_threshold }

/-- An uploaded audio file (opaque bytes; the handlers never inspect it). -/
abbrev AudioFile := List ℕ

/-- Observable outcome of the Analyze Voice handler: the match banner with the
identified person, the unknown-voice banner, or the uncaught `IndexError`
raised by `random.choice` on an empty key list. -/
inductive AnalyzeOutcome where
  | matched (person : String) (confidence : ℚ)
  | unknown (confidence : ℚ)
  | failure
deriving DecidableEq, Repr

/-- Core of the Analyze Voice handler (lines 517-543).  `r` is the draw of
`random.random()` deciding `is_known = r > 0.3`; `choice_idx` is the index
drawn by `random.choice(list(known_voices.keys()))` (valid draws satisfy
`choice_idx < known.length`; on an empty store `random.choice` raises
`IndexError`, modelled as `failure`); `noise_known` is the draw of
`random.uniform(-0.1, 0.05)` and `noise_unknown` the draw of
`random.uniform(0.1, 0.4)`.  The uploaded audio plays no part in the
decision. -/
def analyzeVoice (known : VoiceStore) (r : ℚ) (choice_idx : ℕ)
    (noise_known noise_unknown : ℚ) : AnalyzeOutcome :=
  if 3/10 < r then
    match known.get? choice_idx with
    | some kv => AnalyzeOutcome.matched kv.1 (kv.2.confidence + noise_known)
    | none => AnalyzeOutcome.failure
  else
    AnalyzeOutcome.unknown noise_unknown

/-- The Analyze Voice button handler (lines 496-545): with no uploaded file it
only shows a warning (`none`); otherwise it runs the simulated analysis on the
session's `known_voices`. -/
def analyzeHandler (sys : VoiceRecognitionSystem) (test_audio : Option AudioFile)
    (r : ℚ) (choice_idx : ℕ) (noise_known noise_unknown : ℚ) :
    Option AnalyzeOutcome :=
  match test_audio with
  | some _ => some (analyzeVoice sys.known_voices r choice_idx noise_known noise_unknown)
  | none => none

/-- The Register Voice Profile handler (lines 448-465).  `u` is the draw of
`random.random()` and `strength` the draw of
`random.choice(["Good", "Very Good", "Excellent"])`; `today` is the current
date string.  With a non-empty name and an uploaded file it assigns
`known_voices[name] = {...}` (replace-or-append); otherwise it only warns. -/
def registerVoiceProfile (sys : VoiceRecognitionSystem) (name : String)
    (audio_file : Option AudioFile) (u : ℚ) (strength : String) (today : String) :
    VoiceRecognitionSystem :=
  if name ≠ "" ∧ audio_file.isSome then
    { sys with known_voices :=
        dictInsert sys.known_voices name ⟨85/100 + u * (1/10), today, 0, strength⟩ }
  else sys

/-- One invocation of the registration handler, for reasoning about sequences
of enrollments. -/
structure RegOp where
  name : String
  audio_file : Option AudioFile
  u : ℚ
  strength : String
  today : String

/-- Apply one registration to the state. -/
def applyReg (sys : VoiceRecognitionSystem) (op : RegOp) : VoiceRecognitionSystem :=
  registerVoiceProfile sys op.name op.audio_file op.u op.strength op.today

/-- The Simulate Family Call demo button (lines 673-677).  `family_member` is
the draw of `random.choice(["Mom", "Dad", "Sister"])`; on a known member it
reports the member and the stored confidence, otherwise nothing happens. -/
def simulateFamilyCall (sys : VoiceRecognitionSystem) (family_member : String) :
    Option (String × ℚ) :=
  match lookupVoice sys.known_voices family_member with
  | some prof => some (family_member, prof.confidence)
  | none => none

/-- The Simulate Scam Call demo button (lines 680-684).  `scammer` is the draw
of `random.choice(scam_types)` and `u` the draw of `random.uniform(0.05, 0.25)`;
the handler reads no session state at all. -/
def simulateScamCall (scammer : String) (u : ℚ) : String × ℚ := (scammer, u)

/-- Modelled from the spec: the Sliding Window Buffer of the real-time
monitoring pipeline (spec sections 3 and 4.1) has no implementation under
`src/`; the dashboard is UI-only.  The buffer starts zero-padded at full
length `winLen = WIN_SEC * sample_rate`. -/
def windowInit (winLen : ℕ) : List ℚ := List.replicate winLen 0

/-- Modelled from the spec: `push(chunk)` appends the chunk at the tail and
keeps only the last `winLen` samples, so equally many oldest samples are
evicted, and an oversized chunk leaves (at most) its window-sized tail. -/
def windowPush (winLen : ℕ) (w : List ℚ) (chunk : List ℚ) : List ℚ :=
  let t := w ++ chunk
  t.drop (t.length - winLen)

/-! ### Helper lemmas on the association-list store -/

theorem keys_nil : keys [] = [] := rfl

theorem keys_cons (kv : String × VoiceProfile) (rest : VoiceStore) :
    keys (kv :: rest) = kv.1 :: keys rest := rfl

theorem lookupVoice_eq_none_iff (s : VoiceStore) (n : String) :
    lookupVoice s n = none ↔ n ∉ keys s := by
  induction s with
  | nil => simp [lookupVoice, keys_nil]
  | cons kv rest ih =>
    by_cases h : kv.1 = n
    · simp [lookupVoice, h, keys_cons]
    · have h' : ¬(n = kv.1) := fun he => h he.symm
      simp [lookupVoice, h, h', keys_cons, ih]

theorem lookupVoice_isSome_iff (s : VoiceStore) (n : String) :
    (lookupVoice s n).isSome = true ↔ n ∈ keys s := by
  rw [Option.isSome_iff_ne_none, not_iff_comm, ← lookupVoice_eq_none_iff]

theorem lookup_map_replace (s : VoiceStore) (n : String) (p : VoiceProfile)
    (h : n ∈ keys s) :
    lookupVoice (s.map (fun kv => if kv.1 = n then (n, p) else kv)) n = some p := by
  induction s with
  | nil => simp [keys_nil] at h
  | cons kv rest ih =>
    by_cases hk : kv.1 = n
    · simp [lookupVoice, hk]
    · have hn : n ∈ keys rest := by
        rcases List.mem_cons.mp (by rwa [keys_cons] at h) with h1 | h2
        · exact absurd h1.symm hk
        · exact h2
      simp [lookupVoice, hk, ih hn]

theorem lookup_append_single (s : VoiceStore) (n : String) (p : VoiceProfile)
    (h : n ∉ keys s) :
    lookupVoice (s ++ [(n, p)]) n = some p := by
  induction s with
  | nil => simp [lookupVoice]
  | cons kv rest ih =>
    have hk : kv.1 ≠ n := by
      intro he
      exact h (by rw [keys_cons, he]; exact List.mem_cons_self n (keys rest))
    have hn : n ∉ keys rest := by
      intro hm
      exact h (by rw [keys_cons]; exact List.mem_cons_of_mem kv.1 hm)
    simp [lookupVoice, hk, ih hn]

theorem lookupVoice_dictInsert (s : VoiceStore) (n : String) (p : VoiceProfile) :
    lookupVoice (dictInsert s n p) n = some p := by
  by_cases h : n ∈ keys s
  · rw [dictInsert, if_pos h]
    exact lookup_map_replace s n p h
  · rw [dictInsert, if_neg h]
    exact lookup_append_single s n p h

theorem keys_map_replace (s : VoiceStore) (n : String) (p : VoiceProfile) :
    keys (s.map (fun kv => if kv.1 = n then (n, p) else kv)) = keys s := by
  induction s with
  | nil => rfl
  | cons kv rest ih =>
    by_cases hk : kv.1 = n
    · simp [keys, hk] at ih ⊢
      exact ih
    · simp [keys, hk] at ih ⊢
      exact ih

theorem keys_append_single (s : VoiceStore) (n : String) (p : VoiceProfile) :
    keys (s ++ [(n, p)]) = keys s ++ [n] := by
  simp [keys]

theorem keys_dictInsert_nodup (s : VoiceStore) (n : String) (p : VoiceProfile)
    (h : (keys s).Nodup) : (keys (dictInsert s n p)).Nodup := by
  by_cases hmem : n ∈ keys s
  · rw [dictInsert, if_pos hmem, keys_map_replace]
    exact h
  · rw [dictInsert, if_neg hmem, keys_append_single]
    simp [List.nodup_append, h, hmem]

theorem register_preserves_nodup (sys : VoiceRecognitionSystem) (name : String)
    (audio_file : Option AudioFile) (u : ℚ) (strength today : String)
    (h : (keys sys.known_voices).Nodup) :
    (keys (registerVoiceProfile sys name audio_file u strength today).known_voices).Nodup := by
  rw [registerVoiceProfile]
  split
  · exact keys_dictInsert_nodup _ _ _ h
  · exact h

theorem foldl_applyReg_nodup (ops : List RegOp) (sys : VoiceRecognitionSystem)
    (h : (keys sys.known_voices).Nodup) :
    (keys (ops.foldl applyReg sys).known_voices).Nodup := by
  induction ops generalizing sys with
  | nil => exact h
  | cons op rest ih =>
    exact ih _ (register_preserves_nodup sys op.name op.audio_file op.u op.strength op.today h)

/-! ### Claim theorems -/

/-- C4: each processed call (the Simulate Call handler is the only code path
that records a call) appends one record whose status is `"Authorized"` or
`"Blocked"`, incrementing the total and exactly one of the two counters, and
for every history the statistics satisfy
`total_calls = authorized + blocked` (the counters are naturals, hence
non-negative). -/
theorem stats_partition_and_increment (sys : VoiceRecognitionSystem)
    (new_caller : String) (nk nu : ℚ) (ti d : String) :
    (∀ h : List CallRecord,
        (get_stats h).total_calls = (get_stats h).authorized + (get_stats h).blocked)
  ∧ ((get_stats (simulateCall sys new_caller nk nu ti d).1.call_history).total_calls
      = (get_stats sys.call_history).total_calls + 1)
  ∧ (((get_stats (simulateCall sys new_caller nk nu ti d).1.call_history).authorized
        = (get_stats sys.call_history).authorized + 1
      ∧ (get_stats (simulateCall sys new_caller nk nu ti d).1.call_history).blocked
        = (get_stats sys.call_history).blocked)
    ∨ ((get_stats (simulateCall sys new_caller nk nu ti d).1.call_history).authorized
        = (get_stats sys.call_history).authorized
      ∧ (get_stats (simulateCall sys new_caller nk nu ti d).1.call_history).blocked
        = (get_stats sys.call_history).blocked + 1)) := by
  have hpart : ∀ h : List CallRecord,
      (get_stats h).total_calls = (get_stats h).authorized + (get_stats h).blocked := by
    intro h
    have hle := List.length_filter_le isAuthorized h
    simp only [get_stats]
    omega
  have hle := List.length_filter_le isAuthorized sys.call_history
  refine ⟨hpart, ?_⟩
  cases hl : lookupVoice sys.known_voices new_caller with
  | some prof =>
    have hist : (simulateCall sys new_caller nk nu ti d).1.call_history
        = (⟨ti, d, new_caller, "Authorized", prof.confidence + nk⟩ : CallRecord)
            :: sys.call_history := by
      simp [simulateCall, hl]
    rw [hist]
    have hc : isAuthorized ⟨ti, d, new_caller, "Authorized", prof.confidence + nk⟩ = true := rfl
    constructor
    · simp [get_stats]
    · left
      constructor
      · simp [get_stats, List.filter_cons, hc]
      · simp [get_stats, List.filter_cons, hc]
  | none =>
    have hist : (simulateCall sys new_caller nk nu ti d).1.call_history
        = (⟨ti, d, new_caller, "Blocked", nu⟩ : CallRecord) :: sys.call_history := by
      simp [simulateCall, hl]
    rw [hist]
    have hc : isAuthorized ⟨ti, d, new_caller, "Blocked", nu⟩ = false := rfl
    constructor
    · simp [get_stats]
    · right
      constructor
      · simp [get_stats, List.filter_cons, hc]
      · simp [get_stats, List.filter_cons, hc]
        omega

/-- C9: `get_stats` is total on every history; the block rate is guarded, so it
is `0` when `total_calls = 0` (in particular on the empty history) and equals
`blocked / total_calls * 100` only when `total_calls > 0`. -/
theorem get_stats_total (h : List CallRecord) :
    ((get_stats h).total_calls = 0 → (get_stats h).block_rate = 0)
  ∧ (0 < (get_stats h).total_calls →
      (get_stats h).block_rate
        = ((get_stats h).blocked : ℚ) / ((get_stats h).total_calls : ℚ) * 100)
  ∧ get_stats [] = ⟨0, 0, 0, 0⟩ := by
  refine ⟨?_, ?_, by decide⟩
  · intro h0
    simp only [get_stats] at h0 ⊢
    rw [if_neg (by omega)]
  · intro hpos
    simp only [get_stats] at hpos ⊢
    rw [if_pos hpos]

/-- Witness for C9 at the empty history and at a one-record history. -/
theorem get_stats_total_witness :
    ((get_stats []).total_calls = 0 ∧ (get_stats []).block_rate = 0)
  ∧ (0 < (get_stats [⟨"10:00", "01/15", "Robocaller", "Blocked", 0⟩]).total_calls
     ∧ (get_stats [⟨"10:00", "01/15", "Robocaller", "Blocked", 0⟩]).block_rate
        = ((get_stats [⟨"10:00", "01/15", "Robocaller", "Blocked", 0⟩]).blocked : ℚ)
          / ((get_stats [⟨"10:00", "01/15", "Robocaller", "Blocked", 0⟩]).total_calls : ℚ)
          * 100) :=
  ⟨⟨rfl, (get_stats_total []).1 rfl⟩,
   ⟨by decide,
    (get_stats_total [⟨"10:00", "01/15", "Robocaller", "Blocked", 0⟩]).2.1 (by decide)⟩⟩

/-- C5: registering a name that is already enrolled replaces its stored
profile (Python dict assignment), registration preserves uniqueness of names,
and every sequence of registrations starting from a store with unique names —
in particular from the initial demo store — keeps the names unique. -/
theorem enroll_replaces_and_unique (sys : VoiceRecognitionSystem) (name : String)
    (audio_file : Option AudioFile) (u : ℚ) (strength today : String)
    (ops : List RegOp) :
    (name ≠ "" → audio_file.isSome = true →
       lookupVoice (registerVoiceProfile sys name audio_file u strength today).known_voices
           name
         = some ⟨85/100 + u * (1/10), today, 0, strength⟩)
  ∧ ((keys sys.known_voices).Nodup →
       (keys (registerVoiceProfile sys name audio_file u strength today).known_voices).Nodup)
  ∧ ((keys sys.known_voices).Nodup →
       (keys (ops.foldl applyReg sys).known_voices).Nodup)
  ∧ (keys load_demo_voices).Nodup := by
  refine ⟨?_, register_preserves_nodup sys name audio_file u strength today,
    foldl_applyReg_nodup ops sys, by decide⟩
  intro hn ha
  rw [registerVoiceProfile, if_pos ⟨hn, ha⟩]
  exact lookupVoice_dictInsert sys.known_voices name _

/-- Witness for C5: re-enrolling "Mom" on the demo store replaces her profile
and keeps the key list duplicate-free. -/
theorem enroll_replaces_and_unique_witness :
    lookupVoice (registerVoiceProfile ⟨load_demo_voices, 3/4, [], false⟩ "Mom"
        (some [1]) (1/2) "Good" "2024-02-02").known_voices "Mom"
      = some ⟨85/100 + (1/2) * (1/10), "2024-02-02", 0, "Good"⟩
  ∧ (keys (registerVoiceProfile ⟨load_demo_voices, 3/4, [], false⟩ "Mom"
        (some [1]) (1/2) "Good" "2024-02-02").known_voices).Nodup
  ∧ (keys (([] : List RegOp).foldl applyReg
        ⟨load_demo_voices, 3/4, [], false⟩).known_voices).Nodup :=
  ⟨(enroll_replaces_and_unique ⟨load_demo_voices, 3/4, [], false⟩ "Mom" (some [1])
      (1/2) "Good" "2024-02-02" []).1 (by decide) rfl,
   (enroll_replaces_and_unique ⟨load_demo_voices, 3/4, [], false⟩ "Mom" (some [1])
      (1/2) "Good" "2024-02-02" []).2.1 (by decide),
   (enroll_replaces_and_unique ⟨load_demo_voices, 3/4, [], false⟩ "Mom" (some [1])
      (1/2) "Good" "2024-02-02" []).2.2.1 (by decide)⟩

/-- C3 counterexample: from Idle with zero enrolled voices, the Start
Monitoring handler switches the state to Running; there is no
ConfigurationError and the state does not remain Idle, contrary to the
claim. -/
theorem start_with_no_voices_cex :
    (monitoringButton ⟨[], 3/4, [], false⟩).monitoring = true
  ∧ (⟨[], 3/4, [], false⟩ : VoiceRecognitionSystem).known_voices = [] :=
  ⟨rfl, rfl⟩

/-- C3 amended: starting monitoring requires nothing and never fails: the
handler unconditionally toggles the flag, so from Idle it always yields
Running — for any store, including an empty one — leaving the store
unchanged. -/
theorem start_toggles_unconditionally (sys : VoiceRecognitionSystem)
    (h : sys.monitoring = false) :
    (monitoringButton sys).monitoring = true
  ∧ (monitoringButton sys).known_voices = sys.known_voices := by
  constructor
  · rw [monitoringButton, h]
    rfl
  · rfl

/-- Witness for the amended C3 at the empty-store Idle state. -/
theorem start_toggles_unconditionally_witness :
    (⟨[], 3/4, [], false⟩ : VoiceRecognitionSystem).monitoring = false
  ∧ ((monitoringButton ⟨[], 3/4, [], false⟩).monitoring = true
     ∧ (monitoringButton ⟨[], 3/4, [], false⟩).known_voices
        = (⟨[], 3/4, [], false⟩ : VoiceRecognitionSystem).known_voices) :=
  ⟨rfl, start_toggles_unconditionally ⟨[], 3/4, [], false⟩ rfl⟩

/-- C6 counterexample: the only stop control is a toggle button: invoking it
twice starting from Running leaves the system Running again (not Idle), and
invoking it while Idle starts monitoring instead of being a no-op. -/
theorem stop_not_idempotent_cex :
    (monitoringButton (monitoringButton ⟨load_demo_voices, 3/4, [], true⟩)).monitoring
      = true
  ∧ (monitoringButton ⟨load_demo_voices, 3/4, [], false⟩).monitoring = true :=
  ⟨rfl, rfl⟩

/-- C6 amended: the Start/Stop button is an involution on the state — one
press from Running yields Idle, and a second press restarts monitoring, so the
double press returns to the original state; there is no idempotent stop. -/
theorem monitoringButton_involution (sys : VoiceRecognitionSystem) :
    monitoringButton (monitoringButton sys) = sys
  ∧ (sys.monitoring = true → (monitoringButton sys).monitoring = false) := by
  constructor
  · cases sys
    simp [monitoringButton]
  · intro h
    rw [monitoringButton, h]
    rfl

/-- Witness for the amended C6 at a Running demo state. -/
theorem monitoringButton_involution_witness :
    monitoringButton (monitoringButton ⟨load_demo_voices, 3/4, [], true⟩)
      = ⟨load_demo_voices, 3/4, [], true⟩
  ∧ ((⟨load_demo_voices, 3/4, [], true⟩ : VoiceRecognitionSystem).monitoring = true
     ∧ (monitoringButton ⟨load_demo_voices, 3/4, [], true⟩).monitoring = false) :=
  ⟨(monitoringButton_involution ⟨load_demo_voices, 3/4, [], true⟩).1,
   rfl, (monitoringButton_involution ⟨load_demo_voices, 3/4, [], true⟩).2 rfl⟩

/-- C1 counterexample: with the threshold set to 0.95, a simulated call drawn
as "Mom" (stored confidence 0.94, zero noise) is still Authorized although its
confidence is below the current threshold; and a call drawn as "Telemarketer"
is Blocked but recorded with caller "Telemarketer", not "Unknown".  So the
decision is not "Authorized exactly when best similarity ≥ Threshold", and a
blocked call does not carry caller "Unknown". -/
theorem simulateCall_threshold_cex :
    ((simulateCall ⟨load_demo_voices, 19/20, [], false⟩ "Mom" 0 (1/5)
        "12:00" "01/15").2.status = "Authorized"
     ∧ (simulateCall ⟨load_demo_voices, 19/20, [], false⟩ "Mom" 0 (1/5)
        "12:00" "01/15").2.confidence
        < (⟨load_demo_voices, 19/20, [], false⟩ : VoiceRecognitionSystem).threshold)
  ∧ ((simulateCall ⟨load_demo_voices, 19/20, [], false⟩ "Telemarketer" 0 (1/5)
        "12:00" "01/15").2.status = "Blocked"
     ∧ (simulateCall ⟨load_demo_voices, 19/20, [], false⟩ "Telemarketer" 0 (1/5)
        "12:00" "01/15").2.caller ≠ "Unknown") := by
  have hm : lookupVoice load_demo_voices "Mom"
      = some ⟨94/100, "2024-01-10", 3, "Excellent"⟩ := rfl
  have ht : lookupVoice load_demo_voices "Telemarketer" = none := rfl
  refine ⟨⟨?_, ?_⟩, ?_, ?_⟩
  · simp only [simulateCall, hm]
  · simp only [simulateCall, hm]
    norm_num
  · simp only [simulateCall, ht]
  · simp only [simulateCall, ht]
    decide

/-- C1 amended: the Simulate Call decision never reads the threshold: the
status is Authorized exactly when the drawn caller is enrolled in
`known_voices`; the recorded caller is always the drawn name (never replaced
by "Unknown"); an unenrolled draw yields status Blocked with the fresh uniform
draw as confidence; and changing the threshold beforehand does not change the
emitted record. -/
theorem simulateCall_decision_by_membership (sys : VoiceRecognitionSystem)
    (new_caller : String) (nk nu : ℚ) (ti d : String) :
    ((simulateCall sys new_caller nk nu ti d).2.caller = new_caller)
  ∧ ((simulateCall sys new_caller nk nu ti d).2.status = "Authorized"
       ↔ new_caller ∈ keys sys.known_voices)
  ∧ (new_caller ∉ keys sys.known_voices →
       (simulateCall sys new_caller nk nu ti d).2.status = "Blocked"
     ∧ (simulateCall sys new_caller nk nu ti d).2.confidence = nu)
  ∧ (∀ t : ℚ, (simulateCall (updateSettings sys t) new_caller nk nu ti d).2
       = (simulateCall sys new_caller nk nu ti d).2) := by
  cases hl : lookupVoice sys.known_voices new_caller with
  | some prof =>
    have hmem : new_caller ∈ keys sys.known_voices := by
      rw [← lookupVoice_isSome_iff, hl]
      rfl
    refine ⟨by simp [simulateCall, hl], by simp [simulateCall, hl, hmem],
      fun hn => absurd hmem hn, fun t => rfl⟩
  | none =>
    have hmem : new_caller ∉ keys sys.known_voices :=
      (lookupVoice_eq_none_iff _ _).mp hl
    refine ⟨by simp [simulateCall, hl], ?_, fun _ => ⟨by simp [simulateCall, hl],
      by simp [simulateCall, hl]⟩, fun t => rfl⟩
    simp only [simulateCall, hl]
    constructor
    · intro hs
      exact absurd hs (by decide)
    · intro hm
      exact absurd hm hmem

/-- Witness for the amended C1: a "Telemarketer" draw on the demo store. -/
theorem simulateCall_decision_by_membership_witness :
    ((simulateCall ⟨load_demo_voices, 3/4, [], false⟩ "Telemarketer" 0 (1/4)
        "10:00" "01/15").2.caller = "Telemarketer")
  ∧ ("Telemarketer" ∉ keys load_demo_voices)
  ∧ ((simulateCall ⟨load_demo_voices, 3/4, [], false⟩ "Telemarketer" 0 (1/4)
        "10:00" "01/15").2.status = "Blocked"
     ∧ (simulateCall ⟨load_demo_voices, 3/4, [], false⟩ "Telemarketer" 0 (1/4)
        "10:00" "01/15").2.confidence = 1/4)
  ∧ (simulateCall (updateSettings ⟨load_demo_voices, 3/4, [], false⟩ (1/2))
        "Telemarketer" 0 (1/4) "10:00" "01/15").2
      = (simulateCall ⟨load_demo_voices, 3/4, [], false⟩ "Telemarketer" 0 (1/4)
        "10:00" "01/15").2 :=
  ⟨(simulateCall_decision_by_membership ⟨load_demo_voices, 3/4, [], false⟩
      "Telemarketer" 0 (1/4) "10:00" "01/15").1,
   by decide,
   (simulateCall_decision_by_membership ⟨load_demo_voices, 3/4, [], false⟩
      "Telemarketer" 0 (1/4) "10:00" "01/15").2.2.1 (by decide),
   (simulateCall_decision_by_membership ⟨load_demo_voices, 3/4, [], false⟩
      "Telemarketer" 0 (1/4) "10:00" "01/15").2.2.2 (1/2)⟩

/-- C2: with an empty reference store the Analyze Voice handler does not
return a Blocked/"Unknown"/0 result: when the draw of `random.random()`
exceeds 0.3 the code evaluates `random.choice` over the empty key list and
raises an uncaught IndexError (modelled as `failure`), and on the other branch
it reports the fresh uniform draw from [0.1, 0.4] (here 1/4) as confidence,
never 0. -/
theorem analyze_empty_store_behaviour :
    analyzeHandler ⟨[], 3/4, [], false⟩ (some [1]) (1/2) 0 0 (1/4)
      = some AnalyzeOutcome.failure
  ∧ analyzeHandler ⟨[], 3/4, [], false⟩ (some [1]) (1/5) 0 0 (1/4)
      = some (AnalyzeOutcome.unknown (1/4)) := by
  have h1 : ((3 : ℚ)/10 < 1/2) := by norm_num
  have h2 : ¬((3 : ℚ)/10 < 1/5) := by norm_num
  constructor
  · simp only [analyzeHandler, analyzeVoice]
    rw [if_pos h1]
    rfl
  · simp only [analyzeHandler, analyzeVoice]
    rw [if_neg h2]

/-- C7 counterexample: two invocations of the Analyze Voice handler with the
same uploaded audio and the same enrolled store return different results when
the hidden `random.random()` draw differs (0.5 versus 0.2), so the decision is
not a function of the live input and the store alone. -/
theorem analyze_hidden_randomness_cex :
    analyzeHandler ⟨load_demo_voices, 3/4, [], false⟩ (some [1, 2, 3]) (1/2) 0 0 (1/4)
      ≠ analyzeHandler ⟨load_demo_voices, 3/4, [], false⟩ (some [1, 2, 3]) (1/5) 0 0 (1/4) := by
  have h1 : ((3 : ℚ)/10 < 1/2) := by norm_num
  have h2 : ¬((3 : ℚ)/10 < 1/5) := by norm_num
  simp only [analyzeHandler, analyzeVoice]
  rw [if_pos h1, if_neg h2]
  decide

/-- C7 amended: the decision is deterministic only once the hidden random
draws are fixed: it is a function of the enrolled store and the draws alone —
in particular the content of the uploaded audio and every other state
component are irrelevant, and repeated invocation with the same store and
draws returns the identical caller, status and confidence. -/
theorem analyze_deterministic_given_draws (sys sys' : VoiceRecognitionSystem)
    (a b : AudioFile) (r : ℚ) (choice_idx : ℕ) (nk nu : ℚ)
    (h : sys.known_voices = sys'.known_voices) :
    analyzeHandler sys (some a) r choice_idx nk nu
      = analyzeHandler sys' (some b) r choice_idx nk nu := by
  simp [analyzeHandler, h]

/-- Witness for the amended C7: two states sharing the demo store but
differing in threshold, history position and audio give the same outcome. -/
theorem analyze_deterministic_given_draws_witness :
    (⟨load_demo_voices, 3/4, [], false⟩ : VoiceRecognitionSystem).known_voices
      = (⟨load_demo_voices, 1/2, [], true⟩ : VoiceRecognitionSystem).known_voices
  ∧ analyzeHandler ⟨load_demo_voices, 3/4, [], false⟩ (some [1]) (1/2) 0 0 (1/4)
      = analyzeHandler ⟨load_demo_voices, 1/2, [], true⟩ (some [2]) (1/2) 0 0 (1/4) :=
  ⟨rfl, analyze_deterministic_given_draws ⟨load_demo_voices, 3/4, [], false⟩
    ⟨load_demo_voices, 1/2, [], true⟩ [1] [2] (1/2) 0 0 (1/4) rfl⟩

/-- C10: threshold noninterference — two runs whose states differ only in the
stored threshold (same draws, same inputs) get the identical emitted call
record from Simulate Call, the identical Analyze Voice outcome, and the
identical Simulate Family Call banner.  (The Simulate Scam Call handler reads
no session state at all, see `simulateScamCall`.) -/
theorem threshold_noninterference (sys : VoiceRecognitionSystem) (t : ℚ)
    (new_caller : String) (nk nu : ℚ) (ti d : String)
    (test_audio : Option AudioFile) (r : ℚ) (choice_idx : ℕ) (ck cu : ℚ)
    (family_member : String) :
    (simulateCall (updateSettings sys t) new_caller nk nu ti d).2
      = (simulateCall sys new_caller nk nu ti d).2
  ∧ analyzeHandler (updateSettings sys t) test_audio r choice_idx ck cu
      = analyzeHandler sys test_audio r choice_idx ck cu
  ∧ simulateFamilyCall (updateSettings sys t) family_member
      = simulateFamilyCall sys family_member :=
  ⟨rfl, rfl, rfl⟩

/-- Auxiliary: one push keeps the window at full length. -/
theorem windowPush_length (winLen : ℕ) (w chunk : List ℚ) (hw : w.length = winLen) :
    (windowPush winLen w chunk).length = winLen := by
  simp only [windowPush, List.length_drop, List.length_append, hw]
  omega

/-- Auxiliary: any chunk sequence folded onto a full-length window keeps it at
full length. -/
theorem foldl_windowPush_length (winLen : ℕ) (chunks : List (List ℚ)) (w : List ℚ)
    (hw : w.length = winLen) :
    (chunks.foldl (windowPush winLen) w).length = winLen := by
  induction chunks generalizing w with
  | nil => exact hw
  | cons c rest ih => exact ih _ (windowPush_length winLen w c hw)

/-- C8 (modelled from the spec, section 4.1): starting from the zero-padded
full window, after any sequence of pushes the buffer length is exactly
`winLen = WIN_SEC * sample_rate`; a push of a chunk no longer than the window
appends it and evicts equally many oldest samples, and an oversized chunk
replaces the buffer with its window-sized tail. -/
theorem slidingWindow_invariant (winLen : ℕ) (w chunk : List ℚ)
    (chunks : List (List ℚ)) (hw : w.length = winLen) :
    (windowPush winLen w chunk).length = winLen
  ∧ (chunk.length ≤ winLen →
       windowPush winLen w chunk = w.drop chunk.length ++ chunk)
  ∧ (winLen ≤ chunk.length →
       windowPush winLen w chunk = chunk.drop (chunk.length - winLen))
  ∧ (chunks.foldl (windowPush winLen) (windowInit winLen)).length = winLen := by
  have hdrop : windowPush winLen w chunk
      = w.drop chunk.length ++ chunk.drop (chunk.length - winLen) := by
    simp only [windowPush, List.length_append, hw]
    rw [show winLen + chunk.length - winLen = chunk.length by omega,
      List.drop_append_eq_append_drop, hw]
  refine ⟨windowPush_length winLen w chunk hw, ?_, ?_,
    foldl_windowPush_length winLen chunks (windowInit winLen)
      (by simp [windowInit])⟩
  · intro hle
    rw [hdrop, show chunk.length - winLen = 0 by omega, List.drop_zero]
  · intro hge
    rw [hdrop, List.drop_eq_nil_of_le (show w.length ≤ chunk.length by omega),
      List.nil_append]

/-- Witness for C8 with a window of two samples: an in-size push and an
oversized push. -/
theorem slidingWindow_invariant_witness :
    (windowPush 2 [1, 2] [3]).length = 2
  ∧ windowPush 2 [1, 2] [3] = ([1, 2] : List ℚ).drop 1 ++ [3]
  ∧ windowPush 2 [1, 2] [4, 5, 6] = ([4, 5, 6] : List ℚ).drop 1
  ∧ ([[3], [4, 5, 6]].foldl (windowPush 2) (windowInit 2)).length = 2 :=
  ⟨(slidingWindow_invariant 2 [1, 2] [3] [[3], [4, 5, 6]] rfl).1,
   (slidingWindow_invariant 2 [1, 2] [3] [[3], [4, 5, 6]] rfl).2.1 (by decide),
   (slidingWindow_invariant 2 [1, 2] [4, 5, 6] [[3], [4, 5, 6]] rfl).2.2.1 (by decide),
   (slidingWindow_invariant 2 [1, 2] [3] [[3], [4, 5, 6]] rfl).2.2.2⟩

end VoiceDashboard
